import Mathlib

/-!
Verification of the reservation-to-occupancy pipeline and forecasting wrappers
of the Hotel Reservation Forecasting repository.

The two source modules are embedded shallowly:

* `data_transformer.py` — `expand_reservations_to_daily` and
  `aggregate_daily_occupancy`, working over pandas DataFrames.  A DataFrame of
  reservations is a `List Row`; calendar dates are day numbers (`Int`), which
  is faithful for the day-granularity arithmetic the code performs
  (`pd.date_range(..., inclusive='left')` with daily frequency).
* `forecasting.py` — thin wrappers over external statistical libraries
  (statsmodels, pmdarima, sklearn, numpy).  The wrappers themselves are
  embedded exactly; the external capabilities they invoke are modelled at the
  interface granularity the wrappers use.

Exact rational arithmetic stands in for Python floats; where the numpy code
can leave the finite range (division by zero in the MAPE metric) the values
are modelled by `NpVal`, rationals extended with the IEEE-754 special values
`inf`, `-inf` and `nan`, with the IEEE rules for the operations the code uses.
-/

namespace Hotel

/-- Python-level errors that the embedded pipeline can surface.  The repository
code defines no exception classes of its own; `valueError`, `keyError` and
`typeError` are the Python/library exceptions that actually occur.  The last
three constructors are the custom error taxonomy named by the design spec
(`InvalidHorizonError`, `InsufficientDataError`, `UndefinedMetricError`); they
are included so that spec-level claims about them can be stated, but no code
path in the repository ever constructs them. -/
inductive PyError where
  | valueError (msg : String)
  | keyError (msg : String)
  | typeError (msg : String)
  | invalidHorizonError
  | insufficientDataError
  | undefinedMetricError
deriving DecidableEq, Repr

/-! ## data_transformer.py -/

/-- A value held by the arrival/departure column of the reservations
DataFrame: either already a pandas datetime (`parsed`, carrying its day
number), or a raw value (`unparsed`, carrying the raw text together with the
day number `pd.to_datetime` would produce for it, `none` when parsing raises).
The parse result is data because date parsing is a pandas capability, not code
of this repository. -/
inductive DVal where
  | parsed (day : Int)
  | unparsed (raw : String) (parse : Option Int)
deriving DecidableEq, Repr

/-- Embeds `pd.to_datetime` applied to one cell: a datetime passes through, a raw
value yields its parse result or fails. -/
def toDatetime : DVal → Option Int
  | .parsed d => some d
  | .unparsed _ r => r

/-- The in-place effect of `df[col] = pd.to_datetime(df[col])` on one cell
(meaningful after `toDatetime` is known to succeed on it). -/
def forceParse (v : DVal) : DVal :=
  match toDatetime v with
  | some d => .parsed d
  | none => v

/-- One row of the reservations DataFrame: the two date columns plus all other
attributes, which the pipeline carries verbatim. -/
structure Row where
  arrival : DVal
  departure : DVal
  other : List (String × String)
deriving DecidableEq, Repr

/-- One row of the expanded DataFrame: `row.copy()` with the extra `date`
field set (`data_transformer.py` lines 49-51). -/
structure DailyRecord where
  row : Row
  date : Int
deriving DecidableEq, Repr

/-- Embeds `pd.date_range(start, end, inclusive='left')` at daily frequency: the day
numbers `d` with `start ≤ d < end`; empty when `end ≤ start`. -/
def date_range_left (a b : Int) : List Int :=
  (List.range (b - a).toNat).map fun i : Nat => a + (i : Int)

/-- Embeds `df[arrival_col] = pd.to_datetime(df[arrival_col])`
(`data_transformer.py` line 33): the whole column is converted, or the call
raises (`none`) and no converted frame exists. -/
def convertArrivals : List Row → Option (List Row)
  | [] => some []
  | r :: rest =>
    match toDatetime r.arrival, convertArrivals rest with
    | some d, some rs => some ({ r with arrival := .parsed d } :: rs)
    | _, _ => none

/-- Embeds `df[departure_col] = pd.to_datetime(df[departure_col])`
(`data_transformer.py` line 34). -/
def convertDepartures : List Row → Option (List Row)
  | [] => some []
  | r :: rest =>
    match toDatetime r.departure, convertDepartures rest with
    | some d, some rs => some ({ r with departure := .parsed d } :: rs)
    | _, _ => none

/-- The body of the `for idx, row in df.iterrows()` loop for one row: one
`DailyRecord` per day of the half-open range.  After the column conversions
both date cells are datetimes, so the fallback branch is unreachable in the
pipeline. -/
def expandRow (r : Row) : List DailyRecord :=
  match toDatetime r.arrival, toDatetime r.departure with
  | some a, some b => (date_range_left a b).map fun d => { row := r, date := d }
  | _, _ => []

/-- Embeds `expand_reservations_to_daily` (`data_transformer.py` lines 8-56).  The
function first converts the two date columns of the caller's DataFrame **in
place**, then builds the list of daily records from the converted rows.  The
result pairs the caller's DataFrame as it stands after the call with the
returned daily DataFrame; `none` is a raised `pandas` parse error. -/
def expand_reservations_to_daily (df : List Row) :
    Option (List Row × List DailyRecord) :=
  match convertArrivals df with
  | none => none
  | some df1 =>
    match convertDepartures df1 with
    | none => none
    | some df2 => some (df2, df2.flatMap expandRow)

/-- Insert a date into a sorted duplicate-free list of group keys, keeping it
sorted and duplicate-free. -/
def insertSorted (d : Int) : List Int → List Int
  | [] => [d]
  | x :: xs =>
    if d < x then d :: x :: xs
    else if d = x then x :: xs
    else x :: insertSorted d xs

/-- The group keys of `daily_df.groupby('date')`: the distinct dates, in
ascending order (pandas `groupby` sorts its keys). -/
def sortedUniqueKeys (dates : List Int) : List Int :=
  dates.foldl (fun acc d => insertSorted d acc) []

/-- Embeds `daily_df.groupby('date').size().reset_index(name='occupancy')`
(`data_transformer.py` line 73): one `(date, group size)` pair per distinct
date, keys ascending. -/
def groupbySize (dates : List Int) : List (Int × Nat) :=
  (sortedUniqueKeys dates).map fun d => (d, dates.count d)

/-- Embeds `occupancy.sort_values('date')` (`data_transformer.py` line 74). -/
def sort_values_date (l : List (Int × Nat)) : List (Int × Nat) :=
  l.mergeSort fun p q => decide (p.1 ≤ q.1)

/-- Embeds `aggregate_daily_occupancy` (`data_transformer.py` lines 59-76).  The
input is the DataFrame built by `pd.DataFrame(daily_records)`: when the
record list is empty that constructor yields a frame with **no columns at
all**, so `daily_df.groupby('date')` raises `KeyError: 'date'`; otherwise
every record carries a `date` field and the group-by proceeds. -/
def aggregate_daily_occupancy (daily_df : List DailyRecord) :
    Except PyError (List (Int × Nat)) :=
  if daily_df.isEmpty then
    .error (.keyError "date")
  else
    .ok (sort_values_date (groupbySize (daily_df.map DailyRecord.date)))

/-! ## forecasting.py -/

/-- The handle returned by the external
`statsmodels.tsa.seasonal.seasonal_decompose` once its input validation has
passed.  The numeric `trend`/`seasonal`/`resid` components are produced by
external floating-point code that the repository merely forwards, and no
property below inspects them, so the handle records the validated inputs
(`observed` is the input series, returned unchanged as
`decomposition.observed`). -/
structure DecompositionHandle where
  observed : List ℚ
  period : Nat
  kind : String
deriving DecidableEq, Repr

/-- Model of the external library function
`statsmodels.tsa.seasonal.seasonal_decompose(x, model=model, period=period)`
at the granularity the wrapper uses: the library validates that the series
contains at least two complete seasonal cycles and raises
`ValueError("x must have 2 complete cycles ...")` when
`len(x) < 2 * period`; otherwise it decomposes. -/
def seasonal_decompose (series : List ℚ) (model : String) (period : Nat) :
    Except PyError DecompositionHandle :=
  if series.length < 2 * period then
    .error (.valueError "x must have 2 complete cycles")
  else
    .ok { observed := series, period := period, kind := model }

/-- Embeds `decompose_time_series` (`forecasting.py` lines 12-41): calls
`seasonal_decompose(series, model=model, period=freq)` and repackages the
result; it performs no validation of its own. -/
def decompose_time_series (series : List ℚ) (freq : Nat := 7)
    (model : String := "additive") : Except PyError DecompositionHandle :=
  seasonal_decompose series model freq

/-- A fitted model as `forecast_future` sees it: an opaque artifact (produced
by `pmdarima.auto_arima` in `fit_auto_arima`) whose only capability used by
the wrapper is `predict(n_periods=..., return_conf_int=True)`, returning the
point forecasts and the per-step confidence intervals, or raising a library
error. -/
structure FittedModel where
  predict : Int → Except PyError (List ℚ × List (ℚ × ℚ))

/-- Embeds `forecast_future` (`forecasting.py` lines 78-102): forwards `n_periods`
to `model.predict(n_periods=n_periods, return_conf_int=True)` and returns the
result unchanged.  The wrapper contains no validation of `n_periods`. -/
def forecast_future (model : FittedModel) (n_periods : Int := 30) :
    Except PyError (List ℚ × List (ℚ × ℚ)) :=
  model.predict n_periods

/-- A numpy floating-point value as the evaluation code can produce it: a
finite value (exact rational), one of the two infinities, or `nan`. -/
inductive NpVal where
  | num (q : ℚ)
  | inf
  | ninf
  | nan
deriving DecidableEq, Repr

/-- IEEE-754 addition on `NpVal` (numpy semantics). -/
def NpVal.add : NpVal → NpVal → NpVal
  | nan, _ => nan
  | _, nan => nan
  | inf, ninf => nan
  | ninf, inf => nan
  | inf, _ => inf
  | _, inf => inf
  | ninf, _ => ninf
  | _, ninf => ninf
  | num a, num b => num (a + b)

/-- IEEE-754 multiplication on `NpVal` (numpy semantics). -/
def NpVal.mul : NpVal → NpVal → NpVal
  | nan, _ => nan
  | _, nan => nan
  | num a, num b => num (a * b)
  | inf, num b => if 0 < b then inf else if b < 0 then ninf else nan
  | num a, inf => if 0 < a then inf else if a < 0 then ninf else nan
  | ninf, num b => if 0 < b then ninf else if b < 0 then inf else nan
  | num a, ninf => if 0 < a then ninf else if a < 0 then inf else nan
  | inf, inf => inf
  | inf, ninf => ninf
  | ninf, inf => ninf
  | ninf, ninf => inf

/-- IEEE-754 division on `NpVal` (numpy semantics: a nonzero finite value
divided by zero gives a signed infinity, `0/0` gives `nan`). -/
def NpVal.div : NpVal → NpVal → NpVal
  | nan, _ => nan
  | _, nan => nan
  | num a, num b =>
    if b ≠ 0 then num (a / b)
    else if 0 < a then inf
    else if a < 0 then ninf
    else nan
  | num _, inf => num 0
  | num _, ninf => num 0
  | inf, num b => if b < 0 then ninf else inf
  | ninf, num b => if b < 0 then inf else ninf
  | inf, inf => nan
  | inf, ninf => nan
  | ninf, inf => nan
  | ninf, ninf => nan

/-- Models `np.abs` on `NpVal`. -/
def NpVal.npabs : NpVal → NpVal
  | num a => num |a|
  | inf => inf
  | ninf => inf
  | nan => nan

/-- Models `np.sum` over a vector of `NpVal`. -/
def npSum (l : List NpVal) : NpVal :=
  l.foldl NpVal.add (.num 0)

/-- Models `np.mean` over a vector of `NpVal`: the sum divided by the length. -/
def npMean (l : List NpVal) : NpVal :=
  NpVal.div (npSum l) (.num l.length)

/-- Models `sklearn.metrics.mean_absolute_error`: the mean of the absolute
differences (finite for finite inputs, hence a plain rational). -/
def mean_absolute_error (actual predicted : List ℚ) : ℚ :=
  (List.zipWith (fun a p => |a - p|) actual predicted).sum / actual.length

/-- Models `sklearn.metrics.mean_squared_error`: the mean of the squared
differences. -/
def mean_squared_error (actual predicted : List ℚ) : ℚ :=
  (List.zipWith (fun a p => (a - p) ^ 2) actual predicted).sum / actual.length

/-- Models `np.mean(np.abs((actual - predicted) / actual)) * 100`
(`forecasting.py` line 128): the element-wise quotient is numpy division, so
a zero actual produces an infinity or `nan` that propagates through the
mean. -/
def mapeOf (actual predicted : List ℚ) : NpVal :=
  NpVal.mul
    (npMean (List.zipWith
      (fun a p => NpVal.npabs (NpVal.div (.num (a - p)) (.num a)))
      actual predicted))
    (.num 100)

/-- The dictionary returned by `evaluate_model`. -/
structure EvalMetrics where
  MAE : ℚ
  RMSE : ℚ
  MAPE : NpVal
deriving DecidableEq, Repr

/-- Embeds `evaluate_model` (`forecasting.py` lines 105-134).  The sklearn metric
functions validate their inputs first: sequences of different lengths raise
`ValueError` (inconsistent numbers of samples), as do empty sequences
(0 samples); otherwise the three metrics are computed, `RMSE` as
`np.sqrt(mean_squared_error(...))` (exact on the rational squares produced by
rational inputs) and `MAPE` by the numpy expression above, with **no**
guard against zero actual values. -/
def evaluate_model (actual predicted : List ℚ) : Except PyError EvalMetrics :=
  if actual.length ≠ predicted.length then
    .error (.valueError "Found input variables with inconsistent numbers of samples")
  else if actual.length = 0 then
    .error (.valueError "Found array with 0 samples")
  else
    .ok { MAE := mean_absolute_error actual predicted
          RMSE := Rat.sqrt (mean_squared_error actual predicted)
          MAPE := mapeOf actual predicted }

/-! ## Lemmas about the daily expansion -/

theorem date_range_left_length (a b : Int) :
    (date_range_left a b).length = (b - a).toNat := by
  rw [date_range_left, List.length_map, List.length_range]

theorem mem_date_range_left (a b d : Int) :
    d ∈ date_range_left a b ↔ a ≤ d ∧ d < b := by
  simp only [date_range_left, List.mem_map, List.mem_range]
  constructor
  · rintro ⟨i, hi, rfl⟩
    omega
  · rintro ⟨h1, h2⟩
    exact ⟨(d - a).toNat, by omega, by omega⟩

theorem convertArrivals_singleton (r : Row) (a : Int)
    (ha : toDatetime r.arrival = some a) :
    convertArrivals [r] = some [{ r with arrival := .parsed a }] := by
  rw [convertArrivals, ha, convertArrivals]

theorem convertDepartures_singleton (r : Row) (b : Int)
    (hb : toDatetime r.departure = some b) :
    convertDepartures [r] = some [{ r with departure := .parsed b }] := by
  rw [convertDepartures, hb, convertDepartures]

theorem expand_single (r : Row) (a b : Int)
    (ha : toDatetime r.arrival = some a) (hb : toDatetime r.departure = some b) :
    expand_reservations_to_daily [r] =
      some ([{ arrival := .parsed a, departure := .parsed b, other := r.other }],
        (date_range_left a b).map fun d =>
          { row := { arrival := .parsed a, departure := .parsed b, other := r.other },
            date := d }) := by
  have hb' : toDatetime ({ r with arrival := DVal.parsed a } : Row).departure = some b := hb
  have h1 : expand_reservations_to_daily [r] =
      match convertDepartures [{ r with arrival := DVal.parsed a }] with
      | none => none
      | some df2 => some (df2, df2.flatMap expandRow) := by
    rw [expand_reservations_to_daily, convertArrivals_singleton r a ha]
  rw [h1, convertDepartures_singleton _ b hb']
  simp [expandRow, toDatetime]

/-- C1: a reservation whose arrival and departure parse as dates `a ≤ b`
expands to exactly `b - a` daily records, one per day of the half-open
interval `[a, b)`; in particular `a = b` yields zero records. -/
theorem expand_daily_count (r : Row) (a b : Int)
    (ha : toDatetime r.arrival = some a) (hb : toDatetime r.departure = some b)
    (hab : a ≤ b) :
    ∃ dfAfter recs,
      expand_reservations_to_daily [r] = some (dfAfter, recs) ∧
      (recs.length : Int) = b - a ∧
      recs.map DailyRecord.date = date_range_left a b ∧
      (∀ d : Int, d ∈ date_range_left a b ↔ a ≤ d ∧ d < b) := by
  refine ⟨_, _, expand_single r a b ha hb, ?_, ?_, fun d => mem_date_range_left a b d⟩
  · rw [List.length_map, date_range_left_length]
    omega
  · rw [List.map_map]
    exact List.map_id _

/-- Witness for `expand_daily_count` at a concrete three-night stay. -/
theorem expand_daily_count_witness :
    ∃ dfAfter recs,
      expand_reservations_to_daily
        [{ arrival := .unparsed "2024-01-01" (some 10),
           departure := .unparsed "2024-01-04" (some 13), other := [] }] =
        some (dfAfter, recs) ∧
      (recs.length : Int) = 13 - 10 ∧
      recs.map DailyRecord.date = date_range_left 10 13 ∧
      (∀ d : Int, d ∈ date_range_left 10 13 ↔ 10 ≤ d ∧ d < 13) :=
  expand_daily_count
    { arrival := .unparsed "2024-01-01" (some 10),
      departure := .unparsed "2024-01-04" (some 13), other := [] }
    10 13 rfl rfl (by decide)

theorem convertArrivals_some {df df1 : List Row}
    (h : convertArrivals df = some df1) :
    df1 = df.map fun r => { r with arrival := forceParse r.arrival } := by
  induction df generalizing df1 with
  | nil =>
    rw [convertArrivals] at h
    cases h
    rfl
  | cons r rest ih =>
    rw [convertArrivals] at h
    cases hr : toDatetime r.arrival with
    | none => rw [hr] at h; cases h
    | some d =>
      cases hrest : convertArrivals rest with
      | none => rw [hr, hrest] at h; cases h
      | some rs =>
        rw [hr, hrest] at h
        cases h
        rw [List.map_cons, ← ih hrest]
        have : forceParse r.arrival = DVal.parsed d := by rw [forceParse, hr]
        rw [this]

theorem convertDepartures_some {df df1 : List Row}
    (h : convertDepartures df = some df1) :
    df1 = df.map fun r => { r with departure := forceParse r.departure } := by
  induction df generalizing df1 with
  | nil =>
    rw [convertDepartures] at h
    cases h
    rfl
  | cons r rest ih =>
    rw [convertDepartures] at h
    cases hr : toDatetime r.departure with
    | none => rw [hr] at h; cases h
    | some d =>
      cases hrest : convertDepartures rest with
      | none => rw [hr, hrest] at h; cases h
      | some rs =>
        rw [hr, hrest] at h
        cases h
        rw [List.map_cons, ← ih hrest]
        have : forceParse r.departure = DVal.parsed d := by rw [forceParse, hr]
        rw [this]

/-- The caller-visible DataFrame after `expand_reservations_to_daily` returns:
both date columns converted in place, everything else untouched. -/
def convertedFrame (df : List Row) : List Row :=
  df.map fun r =>
    { arrival := forceParse r.arrival, departure := forceParse r.departure,
      other := r.other }

theorem expand_eq_some {df df2 : List Row} {recs : List DailyRecord}
    (h : expand_reservations_to_daily df = some (df2, recs)) :
    df2 = convertedFrame df ∧ recs = df2.flatMap expandRow := by
  rw [expand_reservations_to_daily] at h
  cases h1 : convertArrivals df with
  | none => rw [h1] at h; cases h
  | some dfA =>
    rw [h1] at h
    have h' : (match convertDepartures dfA with
        | none => none
        | some dfB => some (dfB, dfB.flatMap expandRow)) = some (df2, recs) := h
    cases h2 : convertDepartures dfA with
    | none => rw [h2] at h'; cases h'
    | some dfB =>
      rw [h2] at h'
      cases h'
      refine ⟨?_, rfl⟩
      rw [convertDepartures_some h2, convertArrivals_some h1, convertedFrame,
        List.map_map]
      rfl

theorem toDatetime_forceParse (v : DVal) :
    toDatetime (forceParse v) = toDatetime v := by
  cases hv : toDatetime v with
  | none => rw [forceParse, hv]; exact hv
  | some d => rw [forceParse, hv]; rfl

theorem flatMap_nil_of_forall {α β : Type} {l : List α} {f : α → List β}
    (h : ∀ a ∈ l, f a = []) : l.flatMap f = [] := by
  induction l with
  | nil => rfl
  | cons a rest ih =>
    rw [List.flatMap_cons, h a (by simp), ih fun b hb => h b (by simp [hb])]
    rfl

theorem expandRow_conv_same (r : Row)
    (hsame : toDatetime r.arrival = toDatetime r.departure) :
    expandRow { arrival := forceParse r.arrival, departure := forceParse r.departure, other := r.other } = [] := by
  have h1 : toDatetime ({ arrival := forceParse r.arrival, departure := forceParse r.departure, other := r.other } : Row).arrival = toDatetime r.arrival :=
    toDatetime_forceParse r.arrival
  have h2 : toDatetime ({ arrival := forceParse r.arrival, departure := forceParse r.departure, other := r.other } : Row).departure = toDatetime r.departure :=
    toDatetime_forceParse r.departure
  rw [expandRow, h1, h2, ← hsame]
  cases ha : toDatetime r.arrival with
  | none => rfl
  | some a => simp [date_range_left]

/-- C4 amended: `expand_reservations_to_daily` does have a side effect on the
caller's DataFrame — it converts the arrival and departure columns to
datetime in place.  Every other attribute of every row is unchanged, and a
DataFrame whose date columns already hold datetimes is left unchanged. -/
theorem expand_inplace_conversion (df df2 : List Row) (recs : List DailyRecord)
    (h : expand_reservations_to_daily df = some (df2, recs)) :
    df2 = convertedFrame df ∧
    df2.map Row.other = df.map Row.other ∧
    ((∀ r ∈ df, (∃ x, r.arrival = DVal.parsed x) ∧ (∃ y, r.departure = DVal.parsed y)) →
      df2 = df) := by
  obtain ⟨hdf2, -⟩ := expand_eq_some h
  refine ⟨hdf2, ?_, ?_⟩
  · rw [hdf2, convertedFrame, List.map_map]
    rfl
  · intro hall
    rw [hdf2, convertedFrame]
    have hcongr : df.map (fun r =>
        ({ arrival := forceParse r.arrival, departure := forceParse r.departure,
           other := r.other } : Row)) = df.map id := by
      apply List.map_congr_left
      intro r hr
      obtain ⟨⟨x, hx⟩, ⟨y, hy⟩⟩ := hall r hr
      have hfx : forceParse r.arrival = r.arrival := by rw [hx]; rfl
      have hfy : forceParse r.departure = r.departure := by rw [hy]; rfl
      rw [hfx, hfy]
      rfl
    rw [hcongr, List.map_id]

/-- Witness for `expand_inplace_conversion` at a one-row DataFrame whose date
columns are already datetimes. -/
theorem expand_inplace_conversion_witness :
    [({ arrival := DVal.parsed 1, departure := DVal.parsed 2, other := [] } : Row)] = convertedFrame [{ arrival := DVal.parsed 1, departure := DVal.parsed 2, other := [] }] ∧
    ([({ arrival := DVal.parsed 1, departure := DVal.parsed 2, other := [] } : Row)]).map Row.other = ([({ arrival := DVal.parsed 1, departure := DVal.parsed 2, other := [] } : Row)]).map Row.other ∧
    ((∀ r ∈ [({ arrival := DVal.parsed 1, departure := DVal.parsed 2, other := [] } : Row)], (∃ x, r.arrival = DVal.parsed x) ∧ (∃ y, r.departure = DVal.parsed y)) →
      [({ arrival := DVal.parsed 1, departure := DVal.parsed 2, other := [] } : Row)] = [{ arrival := DVal.parsed 1, departure := DVal.parsed 2, other := [] }]) :=
  expand_inplace_conversion
    [{ arrival := DVal.parsed 1, departure := DVal.parsed 2, other := [] }]
    [{ arrival := DVal.parsed 1, departure := DVal.parsed 2, other := [] }]
    [{ row := { arrival := DVal.parsed 1, departure := DVal.parsed 2, other := [] }, date := 1 }]
    rfl

/-- C4 counterexample: on a DataFrame whose date columns hold raw strings the
call succeeds but the caller's DataFrame is left converted, hence changed. -/
theorem expand_mutation_counterexample :
    expand_reservations_to_daily
      [{ arrival := .unparsed "2024-01-01" (some 0),
         departure := .unparsed "2024-01-03" (some 2), other := [] }] =
      some ([{ arrival := .parsed 0, departure := .parsed 2, other := [] }],
        [{ row := { arrival := .parsed 0, departure := .parsed 2, other := [] },
           date := 0 },
         { row := { arrival := .parsed 0, departure := .parsed 2, other := [] },
           date := 1 }]) ∧
    [({ arrival := DVal.parsed 0, departure := DVal.parsed 2, other := [] } : Row)] ≠
      [{ arrival := DVal.unparsed "2024-01-01" (some 0),
         departure := DVal.unparsed "2024-01-03" (some 2), other := [] }] :=
  ⟨rfl, by decide⟩

/-- C10: if every reservation of the input has arrival equal to departure the
expansion produces zero daily records, the DataFrame built from the empty
record list has no `date` column, and `aggregate_daily_occupancy` raises
`KeyError: date` instead of returning an empty occupancy series. -/
theorem empty_daily_frame_keyerror (df df2 : List Row) (recs : List DailyRecord)
    (h : expand_reservations_to_daily df = some (df2, recs))
    (hsame : ∀ r ∈ df, toDatetime r.arrival = toDatetime r.departure) :
    recs = [] ∧ aggregate_daily_occupancy recs = .error (.keyError "date") := by
  obtain ⟨hdf2, hrecs⟩ := expand_eq_some h
  have hnil : recs = [] := by
    rw [hrecs, hdf2, convertedFrame]
    apply flatMap_nil_of_forall
    intro r' hr'
    rw [List.mem_map] at hr'
    obtain ⟨r, hr, rfl⟩ := hr'
    exact expandRow_conv_same r (hsame r hr)
  refine ⟨hnil, ?_⟩
  rw [hnil]
  rfl

/-- Witness for `empty_daily_frame_keyerror` at a one-row same-day stay. -/
theorem empty_daily_frame_keyerror_witness :
    ([] : List DailyRecord) = [] ∧
    aggregate_daily_occupancy [] = .error (.keyError "date") :=
  empty_daily_frame_keyerror
    [{ arrival := DVal.parsed 5, departure := DVal.parsed 5, other := [] }]
    [{ arrival := DVal.parsed 5, departure := DVal.parsed 5, other := [] }]
    [] rfl (by decide)

/-! ## Lemmas about the occupancy aggregation -/

theorem mem_insertSorted (d a : Int) (l : List Int) :
    a ∈ insertSorted d l ↔ a = d ∨ a ∈ l := by
  induction l with
  | nil => simp [insertSorted]
  | cons x xs ih =>
    by_cases h1 : d < x
    · simp [insertSorted, h1]
    · by_cases h2 : d = x
      · subst h2
        simp [insertSorted, h1]
      · simp [insertSorted, h1, h2, ih]
        tauto

theorem pairwise_insertSorted (d : Int) (l : List Int)
    (h : l.Pairwise (· < ·)) : (insertSorted d l).Pairwise (· < ·) := by
  induction l with
  | nil => simp [insertSorted]
  | cons x xs ih =>
    rw [List.pairwise_cons] at h
    obtain ⟨hx, hxs⟩ := h
    by_cases h1 : d < x
    · rw [insertSorted, if_pos h1]
      rw [List.pairwise_cons]
      refine ⟨?_, ?_⟩
      · intro y hy
        rcases List.mem_cons.mp hy with rfl | hy'
        · exact h1
        · exact lt_trans h1 (hx y hy')
      · rw [List.pairwise_cons]
        exact ⟨hx, hxs⟩
    · by_cases h2 : d = x
      · subst h2
        rw [insertSorted, if_neg h1, if_pos rfl, List.pairwise_cons]
        exact ⟨hx, hxs⟩
      · rw [insertSorted, if_neg h1, if_neg h2, List.pairwise_cons]
        refine ⟨?_, ih hxs⟩
        intro y hy
        rcases (mem_insertSorted d y xs).mp hy with rfl | hy'
        · omega
        · exact hx y hy'

theorem sortedUniqueKeys_pairwise (dates : List Int) :
    (sortedUniqueKeys dates).Pairwise (· < ·) := by
  suffices h : ∀ acc : List Int, acc.Pairwise (· < ·) →
      (dates.foldl (fun acc d => insertSorted d acc) acc).Pairwise (· < ·) by
    exact h [] (by simp)
  induction dates with
  | nil => intro acc hacc; simpa using hacc
  | cons d rest ih =>
    intro acc hacc
    exact ih _ (pairwise_insertSorted d acc hacc)

theorem mem_sortedUniqueKeys (dates : List Int) (a : Int) :
    a ∈ sortedUniqueKeys dates ↔ a ∈ dates := by
  suffices h : ∀ acc : List Int,
      (a ∈ dates.foldl (fun acc d => insertSorted d acc) acc ↔ a ∈ acc ∨ a ∈ dates) by
    simpa using h []
  induction dates with
  | nil => intro acc; simp
  | cons d rest ih =>
    intro acc
    rw [List.foldl_cons, ih (insertSorted d acc), mem_insertSorted]
    simp
    tauto

theorem sortedUniqueKeys_nodup (dates : List Int) :
    (sortedUniqueKeys dates).Nodup :=
  (sortedUniqueKeys_pairwise dates).imp fun h => ne_of_lt h

theorem sortedUniqueKeys_perm_dedup (dates : List Int) :
    List.Perm (sortedUniqueKeys dates) dates.dedup := by
  rw [List.perm_ext_iff_of_nodup (sortedUniqueKeys_nodup dates) dates.nodup_dedup]
  intro a
  rw [mem_sortedUniqueKeys, List.mem_dedup]

theorem sum_counts (dates : List Int) :
    ((sortedUniqueKeys dates).map fun d => dates.count d).sum = dates.length := by
  have hperm := (sortedUniqueKeys_perm_dedup dates).map fun d => dates.count d
  rw [hperm.sum_eq]
  exact dates.sum_map_count_dedup_eq_length

theorem groupbySize_pairwise (dates : List Int) :
    (groupbySize dates).Pairwise fun p q => p.1 < q.1 := by
  rw [groupbySize]
  exact List.Pairwise.map _ (fun a b hab => hab) (sortedUniqueKeys_pairwise dates)

theorem sort_values_date_of_sorted (l : List (Int × Nat))
    (h : l.Pairwise fun p q => p.1 < q.1) : sort_values_date l = l := by
  rw [sort_values_date]
  apply List.mergeSort_of_sorted
  exact h.imp fun hpq => decide_eq_true (le_of_lt hpq)

theorem fst_groupbySize (dates : List Int) :
    (groupbySize dates).map Prod.fst = sortedUniqueKeys dates := by
  rw [groupbySize, List.map_map]
  exact List.map_id _

theorem aggregate_ok (daily_df : List DailyRecord) (hne : daily_df ≠ []) :
    aggregate_daily_occupancy daily_df =
      .ok (groupbySize (daily_df.map DailyRecord.date)) := by
  rw [aggregate_daily_occupancy, if_neg (by simpa using hne)]
  rw [sort_values_date_of_sorted _ (groupbySize_pairwise _)]

/-- C2: on a non-empty daily DataFrame the aggregation succeeds, the
resulting occupancy series has exactly one entry per distinct date of the
input (no duplicate dates, and the series dates are exactly the input
dates), and the occupancy counts sum to the number of daily records. -/
theorem aggregate_occupancy_totals (daily_df : List DailyRecord)
    (hne : daily_df ≠ []) :
    ∃ occ, aggregate_daily_occupancy daily_df = .ok occ ∧
      (occ.map Prod.fst).Nodup ∧
      (∀ d : Int, d ∈ occ.map Prod.fst ↔ d ∈ daily_df.map DailyRecord.date) ∧
      (occ.map Prod.snd).sum = daily_df.length := by
  refine ⟨_, aggregate_ok daily_df hne, ?_, ?_, ?_⟩
  · rw [fst_groupbySize]
    exact sortedUniqueKeys_nodup _
  · intro d
    rw [fst_groupbySize, mem_sortedUniqueKeys]
  · rw [groupbySize, List.map_map]
    have hcomp : (Prod.snd ∘ fun d => (d, (daily_df.map DailyRecord.date).count d)) =
        fun d => (daily_df.map DailyRecord.date).count d := rfl
    rw [hcomp, sum_counts, List.length_map]

/-- Witness for `aggregate_occupancy_totals` on three records over two
dates. -/
theorem aggregate_occupancy_totals_witness :
    ∃ occ, aggregate_daily_occupancy
        [{ row := { arrival := DVal.parsed 0, departure := DVal.parsed 2, other := [] }, date := 0 },
         { row := { arrival := DVal.parsed 0, departure := DVal.parsed 2, other := [] }, date := 1 },
         { row := { arrival := DVal.parsed 0, departure := DVal.parsed 2, other := [] }, date := 0 }] = .ok occ ∧
      (occ.map Prod.fst).Nodup ∧
      (∀ d : Int, d ∈ occ.map Prod.fst ↔ d ∈
        ([{ row := { arrival := DVal.parsed 0, departure := DVal.parsed 2, other := [] }, date := 0 },
          { row := { arrival := DVal.parsed 0, departure := DVal.parsed 2, other := [] }, date := 1 },
          { row := { arrival := DVal.parsed 0, departure := DVal.parsed 2, other := [] }, date := 0 }] : List DailyRecord).map DailyRecord.date) ∧
      (occ.map Prod.snd).sum =
        ([{ row := { arrival := DVal.parsed 0, departure := DVal.parsed 2, other := [] }, date := 0 },
          { row := { arrival := DVal.parsed 0, departure := DVal.parsed 2, other := [] }, date := 1 },
          { row := { arrival := DVal.parsed 0, departure := DVal.parsed 2, other := [] }, date := 0 }] : List DailyRecord).length :=
  aggregate_occupancy_totals
    [{ row := { arrival := DVal.parsed 0, departure := DVal.parsed 2, other := [] }, date := 0 },
     { row := { arrival := DVal.parsed 0, departure := DVal.parsed 2, other := [] }, date := 1 },
     { row := { arrival := DVal.parsed 0, departure := DVal.parsed 2, other := [] }, date := 0 }]
    (by decide)

/-- C3: every occupancy series returned by `aggregate_daily_occupancy` is
strictly sorted ascending by date and contains no duplicate dates. -/
theorem aggregate_sorted_nodup (daily_df : List DailyRecord)
    (occ : List (Int × Nat))
    (h : aggregate_daily_occupancy daily_df = .ok occ) :
    (occ.map Prod.fst).Pairwise (· < ·) ∧ (occ.map Prod.fst).Nodup := by
  cases hdf : daily_df with
  | nil =>
    rw [hdf] at h
    exact absurd h (by simp [aggregate_daily_occupancy])
  | cons r rest =>
    rw [hdf, aggregate_ok (r :: rest) (by simp)] at h
    cases h
    rw [fst_groupbySize]
    exact ⟨sortedUniqueKeys_pairwise _, sortedUniqueKeys_nodup _⟩

/-- Witness for `aggregate_sorted_nodup` on three records over two dates. -/
theorem aggregate_sorted_nodup_witness :
    (([((0 : Int), (2 : Nat)), (1, 1)]).map Prod.fst).Pairwise (· < ·) ∧
    (([((0 : Int), (2 : Nat)), (1, 1)]).map Prod.fst).Nodup :=
  aggregate_sorted_nodup
    [{ row := { arrival := DVal.parsed 0, departure := DVal.parsed 2, other := [] }, date := 0 },
     { row := { arrival := DVal.parsed 0, departure := DVal.parsed 2, other := [] }, date := 1 },
     { row := { arrival := DVal.parsed 0, departure := DVal.parsed 2, other := [] }, date := 0 }]
    [(0, 2), (1, 1)] (by rw [aggregate_ok _ (by decide)]; rfl)

/-! ## The forecasting wrappers -/

/-- C5 amended: `forecast_future` performs no horizon validation of its own —
for every fitted model and every `n_periods`, positive or not, it returns
exactly the wrapped model's `predict` result.  In particular it never raises
`InvalidHorizonError`, an error no code in the repository constructs. -/
theorem forecast_future_delegates (model : FittedModel) (n_periods : Int) :
    forecast_future model n_periods = model.predict n_periods := rfl

/-- C5 counterexample: a fitted model whose `predict` yields a result at
horizon `0` makes `forecast_future` return that result for `n_periods = 0`
instead of failing with `InvalidHorizonError`. -/
theorem forecast_future_no_horizon_check :
    forecast_future { predict := fun _ => .ok ([1], [(0, 2)]) } 0 =
      .ok ([1], [(0, 2)]) ∧
    forecast_future { predict := fun _ => .ok ([1], [(0, 2)]) } 0 ≠
      .error PyError.invalidHorizonError :=
  ⟨rfl, fun h => nomatch h⟩

/-- C7 amended: a series shorter than two full seasonal cycles makes
`decompose_time_series` fail, but with the underlying library's `ValueError`;
the repository defines no `InsufficientDataError` and performs no length
validation of its own (a series of length exactly `2 * freq` is accepted by
the library check). -/
theorem decompose_short_series_valueerror (series : List ℚ) (freq : Nat)
    (model : String) (h : series.length < 2 * freq) :
    decompose_time_series series freq model =
      .error (.valueError "x must have 2 complete cycles") := by
  rw [decompose_time_series, seasonal_decompose, if_pos h]

/-- Witness for `decompose_short_series_valueerror` on a five-point series
with weekly seasonality. -/
theorem decompose_short_series_valueerror_witness :
    decompose_time_series [1, 2, 3, 4, 5] 7 "additive" =
      .error (.valueError "x must have 2 complete cycles") :=
  decompose_short_series_valueerror [1, 2, 3, 4, 5] 7 "additive" (by decide)

/-- C7 counterexample: on a five-point series with `freq = 7` the call fails
with the library `ValueError`, not with `InsufficientDataError`. -/
theorem decompose_short_series_counterexample :
    decompose_time_series [(1 : ℚ), 2, 3, 4, 5] 7 "multiplicative" =
      .error (.valueError "x must have 2 complete cycles") ∧
    decompose_time_series [(1 : ℚ), 2, 3, 4, 5] 7 "multiplicative" ≠
      .error PyError.insufficientDataError :=
  ⟨rfl, fun h => by injection h with h2; exact PyError.noConfusion h2⟩

/-! ## The evaluation metrics -/

theorem foldl_add_zeros : ∀ (l : List NpVal), (∀ v ∈ l, v = NpVal.num 0) →
    ∀ c : ℚ, l.foldl NpVal.add (.num c) = .num c
  | [], _, _ => rfl
  | v :: rest, h, c => by
    have hv : v = .num 0 := h v (by simp)
    rw [List.foldl_cons, hv]
    have h1 : NpVal.add (.num c) (.num 0) = .num c := by
      show NpVal.num (c + 0) = NpVal.num c
      rw [add_zero]
    rw [h1]
    exact foldl_add_zeros rest (fun w hw => h w (by simp [hw])) c

/-- C6 (code bug): with a zero actual value `evaluate_model` neither fails
nor skips the point — it silently returns a dictionary whose MAPE is the
non-numeric infinity produced by the division by zero inside
`np.mean(np.abs((actual - predicted) / actual)) * 100`. -/
theorem evaluate_model_zero_actual_inf :
    (evaluate_model [(0 : ℚ), 1] [(1 : ℚ), 1]).map EvalMetrics.MAPE =
      Except.ok NpVal.inf := by
  norm_num [evaluate_model, mapeOf, npMean, npSum, NpVal.div, NpVal.npabs,
    NpVal.add, NpVal.mul, Except.map]

/-- C9: evaluating a non-empty zero-free series against itself yields
MAE = 0, RMSE = 0 and MAPE = 0. -/
theorem evaluate_model_identity (x : List ℚ) (hne : x ≠ [])
    (hnz : ∀ a ∈ x, a ≠ 0) :
    evaluate_model x x = .ok { MAE := 0, RMSE := 0, MAPE := .num 0 } := by
  have hlen0 : x.length ≠ 0 := fun h => hne (List.length_eq_zero.mp h)
  rw [evaluate_model, if_neg (by simp), if_neg hlen0]
  have hmae : mean_absolute_error x x = 0 := by
    rw [mean_absolute_error, List.zipWith_same]
    have h0 : x.map (fun a => |a - a|) = x.map fun _ => (0 : ℚ) :=
      List.map_congr_left fun a _ => by simp
    rw [h0]
    simp
  have hmse : mean_squared_error x x = 0 := by
    rw [mean_squared_error, List.zipWith_same]
    have h0 : x.map (fun a => (a - a) ^ 2) = x.map fun _ => (0 : ℚ) :=
      List.map_congr_left fun a _ => by simp [pow_two]
    rw [h0]
    simp
  have hmape : mapeOf x x = .num 0 := by
    rw [mapeOf, List.zipWith_same]
    have h0 : x.map (fun a => NpVal.npabs (NpVal.div (.num (a - a)) (.num a))) =
        x.map fun _ => NpVal.num 0 := by
      apply List.map_congr_left
      intro a ha
      have hdiv : NpVal.div (.num (a - a)) (.num a) = .num 0 := by
        rw [sub_self]
        simp only [NpVal.div]
        rw [if_pos (hnz a ha)]
        rw [zero_div]
      rw [hdiv]
      simp [NpVal.npabs]
    rw [h0, npMean]
    have hsum : npSum (x.map fun _ => NpVal.num 0) = .num 0 :=
      foldl_add_zeros _ (by simp) 0
    rw [hsum]
    have hcast : (((x.map fun _ => NpVal.num 0).length : Nat) : ℚ) ≠ 0 := by
      rw [List.length_map]
      exact_mod_cast hlen0
    simp only [NpVal.div]
    rw [if_pos hcast, zero_div]
    show NpVal.num (0 * 100) = NpVal.num 0
    rw [zero_mul]
  rw [hmae, hmse, hmape]
  have hsqrt : Rat.sqrt 0 = 0 := by decide
  rw [hsqrt]

/-- Witness for `evaluate_model_identity` on the series `[1, 2]`. -/
theorem evaluate_model_identity_witness :
    evaluate_model [(1 : ℚ), 2] [(1 : ℚ), 2] =
      .ok { MAE := 0, RMSE := 0, MAPE := .num 0 } :=
  evaluate_model_identity [1, 2] (by decide) (by decide)

end Hotel
